import Mathlib

/-!
Verification of the denoflare RPC fetch bridge (`rpc_fetch.ts` area of the
repository): the wire codec (`packRequest` / `unpackRequest` / `packResponse` /
`unpackResponse`), the body registry (`Bodies`), and the caller-side body
resolver (`makeBodyResolverOverRpc`), shallowly embedded in Lean.

Modelling conventions:
- A `Uint8Array` chunk is a `List Nat` of bytes; a `ReadableStream<Uint8Array>`
  is the list of chunks it will produce, in order.
- JS `Map<number, V>` is an association list `List (Nat × V)` with
  lookup / insert / erase operations; iteration order of the map is never
  observed by the code under study, so insert may reorder entries.
- A cached `ReadableStreamDefaultReader` is modelled by the list of chunks
  remaining to be read from its stream.
- Thrown `Error`s are an explicit error type (`BridgeError`), with each
  constructor standing for one family of thrown messages.
-/

/-- One byte chunk (`Uint8Array`). -/
abbrev Chunk := List Nat

/-- A `ReadableStream<Uint8Array>`: the chunks it yields, in order. -/
abbrev StreamModel := List Chunk

/-- `ReadableStreamReadResult<Uint8Array>`: `{ value, done }`.
A JS reader yields `{value: chunk, done: false}` for each chunk and then a
final `{value: undefined, done: true}`. -/
structure ReadResult where
  value : Option Chunk
  done : Bool
deriving Repr, DecidableEq

/-- Errors thrown by the bridge, one constructor per thrown-message family:
`unsupportedRequestOption o` for `packRequest: init.<o>`;
`unsupportedRequestShape` for `packRequest: implement info=...`;
`unknownBody id` for `Bad bodyId: <id>`;
`malformedSyntheticBody` for `packResponse: DenoflareResponse bodyInit=...`. -/
inductive BridgeError where
  | unsupportedRequestOption (optionName : String)
  | unsupportedRequestShape
  | unknownBody (bodyId : Nat)
  | malformedSyntheticBody
deriving Repr, DecidableEq

/-! ## Association lists standing in for `Map<number, V>` -/

/-- `Map.get`: the value stored at `k`, if any. -/
def alookup {α : Type} : List (Nat × α) → Nat → Option α
  | [], _ => none
  | (k, v) :: rest, id => if k = id then some v else alookup rest id

/-- `Map.delete`: remove any entry with key `k`. -/
def aerase {α : Type} : List (Nat × α) → Nat → List (Nat × α)
  | [], _ => []
  | p :: rest, k => if p.1 = k then aerase rest k else p :: aerase rest k

/-- `Map.set`: store `v` at key `k` (entry order in the map is unobserved). -/
def ainsert {α : Type} (m : List (Nat × α)) (k : Nat) (v : α) : List (Nat × α) :=
  (k, v) :: aerase m k

theorem alookup_ainsert_self {α : Type} (m : List (Nat × α)) (k : Nat) (v : α) :
    alookup (ainsert m k v) k = some v := by
  simp [ainsert, alookup]

theorem alookup_aerase_self {α : Type} (m : List (Nat × α)) (k : Nat) :
    alookup (aerase m k) k = none := by
  induction m with
  | nil => rfl
  | cons p rest ih =>
      by_cases h : p.1 = k
      · simpa [aerase, alookup, h] using ih
      · simpa [aerase, alookup, h] using ih

theorem alookup_aerase_ne {α : Type} (m : List (Nat × α)) (k k' : Nat) (h : k' ≠ k) :
    alookup (aerase m k) k' = alookup m k' := by
  induction m with
  | nil => rfl
  | cons p rest ih =>
      by_cases hp : p.1 = k
      · have hpk : p.1 ≠ k' := by rw [hp]; exact h.symm
        simp [aerase, alookup, hp, hpk, h, h.symm, ih]
      · by_cases hq : p.1 = k'
        · simp [aerase, alookup, hp, hq, h, h.symm]
        · simp [aerase, alookup, hp, hq, h, h.symm, ih]

theorem alookup_ainsert_ne {α : Type} (m : List (Nat × α)) (k k' : Nat) (v : α) (h : k' ≠ k) :
    alookup (ainsert m k v) k' = alookup m k' := by
  have hk : k ≠ k' := h.symm
  simp only [ainsert, alookup, hk, if_false]
  exact alookup_aerase_ne m k k' h

theorem aerase_aerase {α : Type} (m : List (Nat × α)) (k : Nat) :
    aerase (aerase m k) k = aerase m k := by
  induction m with
  | nil => rfl
  | cons p rest ih =>
      by_cases hp : p.1 = k
      · simp [aerase, hp, ih]
      · simp [aerase, hp, ih]

theorem aerase_ainsert_self {α : Type} (m : List (Nat × α)) (k : Nat) (v : α) :
    aerase (ainsert m k v) k = aerase m k := by
  simp [ainsert, aerase, aerase_aerase]

/-! ## The body registry (`class Bodies`) -/

/-- `class Bodies`: server-side registry of outbound streaming bodies.
`bodies` is the `Map<number, ReadableStream<Uint8Array>>`, `readers` the
`Map<number, ReadableStreamDefaultReader<Uint8Array>>` (a cached reader is
modelled by the chunks it has not yet delivered), `nextBodyId` the counter. -/
structure Bodies where
  bodies : List (Nat × StreamModel) := []
  readers : List (Nat × List Chunk) := []
  nextBodyId : Nat := 1
deriving Repr, DecidableEq

/-- A fresh `new Bodies()`. -/
def Bodies.init : Bodies := {}

/-- `Bodies.computeBodyId(body)`: `undefined` for a null body, otherwise the
next id, post-incremented, with the body stored. Returns the id (if any) and
the updated registry. -/
def Bodies.computeBodyId (b : Bodies) (body : Option StreamModel) :
    Option Nat × Bodies :=
  match body with
  | none => (none, b)
  | some s =>
      (some b.nextBodyId,
        { b with bodies := ainsert b.bodies b.nextBodyId s
                 nextBodyId := b.nextBodyId + 1 })

/-- One `reader.read()` plus the `result.done` cleanup in
`Bodies.readBodyChunk`: `rem` is what the cached reader for `bodyId` has left.
An exhausted reader yields `{value: undefined, done: true}` and both maps drop
the id; otherwise the head chunk is yielded and the reader advances. -/
def Bodies.readStep (b : Bodies) (bodyId : Nat) (rem : List Chunk) :
    ReadResult × Bodies :=
  match rem with
  | [] =>
      (⟨none, true⟩,
        { b with readers := aerase b.readers bodyId
                 bodies := aerase b.bodies bodyId })
  | c :: rest =>
      (⟨some c, false⟩, { b with readers := ainsert b.readers bodyId rest })

/-- `Bodies.readBodyChunk(bodyId)`: use the cached reader if present, else
open one over the stored body (`Bad bodyId` if absent), perform exactly one
read, and on `done` remove both the reader and the registry entry. -/
def Bodies.readBodyChunk (b : Bodies) (bodyId : Nat) :
    Except BridgeError (ReadResult × Bodies) :=
  match alookup b.readers bodyId with
  | some rem => .ok (b.readStep bodyId rem)
  | none =>
      match alookup b.bodies bodyId with
      | none => .error (.unknownBody bodyId)
      | some body =>
          .ok (Bodies.readStep
                { b with readers := ainsert b.readers bodyId body } bodyId body)

/-! ## JS platform helpers used by the codec -/

/-- JS `parseInt` restricted to the decimal forms that occur here: skip leading
whitespace, optional sign, then leading decimal digits; `none` models `NaN`
(no digits). -/
def parseIntJs (s : String) : Option Int :=
  let cs := s.toList.dropWhile (fun c => c = ' ' ∨ c = '\t' ∨ c = '\n' ∨ c = '\r')
  let signAndRest : Bool × List Char :=
    match cs with
    | '-' :: rest => (true, rest)
    | '+' :: rest => (false, rest)
    | _ => (false, cs)
  let ds := signAndRest.2.takeWhile Char.isDigit
  if ds.isEmpty then none
  else
    let n : Nat := ds.foldl (fun acc c => acc * 10 + (c.toNat - '0'.toNat)) 0
    some (if signAndRest.1 then -(n : Int) else (n : Int))

/-- JS `a || b` where `a` is a nullable string: `b` when `a` is null or the
empty string (both falsy). -/
def jsOrString (a : Option String) (b : String) : String :=
  match a with
  | none => b
  | some v => if v = "" then b else v

/-- String lowercasing via the character list (ASCII case mapping, which is
all that header names and methods use). -/
def strLower (s : String) : String := String.mk (s.data.map Char.toLower)

/-- String uppercasing via the character list. -/
def strUpper (s : String) : String := String.mk (s.data.map Char.toUpper)

/-- Lexicographic comparison of character lists (code-point order). -/
def charListLe : List Char → List Char → Bool
  | [], _ => true
  | _ :: _, [] => false
  | a :: as, b :: bs => if a = b then charListLe as bs else decide (a < b)

/-- `x ≤ y` on strings in code-point order (the order `Headers` sorts by). -/
def strLe (x y : String) : Bool := charListLe x.data y.data

/-- `Headers.get(name)`: case-insensitive; values of duplicate names are
combined with `", "`; `none` for an absent name. -/
def headersGet (hs : List (String × String)) (name : String) : Option String :=
  let vs := hs.filterMap
    (fun p => if strLower p.1 = strLower name then some p.2 else none)
  if vs.isEmpty then none else some (String.intercalate (", ") vs)

/-- Insert a string into a sorted list (for `Headers` iteration order). -/
def insertSortedString (x : String) : List String → List String
  | [] => [x]
  | y :: ys => if strLe x y then x :: y :: ys else y :: insertSortedString x ys

/-- Sort strings ascending (insertion sort). -/
def sortStrings : List String → List String
  | [] => []
  | x :: xs => insertSortedString x (sortStrings xs)

/-- Keep the first occurrence of each string, dropping later duplicates
(`seen` accumulates the strings already emitted). -/
def dedupKeepFirstAux (seen : List String) : List String → List String
  | [] => []
  | x :: xs =>
      if x ∈ seen then dedupKeepFirstAux seen xs
      else x :: dedupKeepFirstAux (x :: seen) xs

/-- Keep the first occurrence of each string. -/
def dedupKeepFirst (xs : List String) : List String := dedupKeepFirstAux [] xs

/-- `[...new Headers(pairs).entries()]`: WHATWG `Headers` lowercases names,
iterates names in sorted order, and combines values of duplicate names with
`", "` in insertion order. (Value whitespace trimming is not modelled; the
values in play carry none.) -/
def headersNorm (hs : List (String × String)) : List (String × String) :=
  let names := dedupKeepFirst (hs.map (fun p => strLower p.1))
  (sortStrings names).map
    (fun n =>
      (n, String.intercalate (", ")
            (hs.filterMap (fun p => if strLower p.1 = n then some p.2 else none))))

/-- WHATWG method normalization performed by `new Request`: byte-uppercase a
method that case-insensitively matches one of the six listed methods; leave
anything else unchanged. -/
def normalizeMethod (m : String) : String :=
  let u := strUpper m
  if u = "DELETE" ∨ u = "GET" ∨ u = "HEAD" ∨ u = "OPTIONS" ∨ u = "POST" ∨ u = "PUT"
  then u else m

/-! ## Packed forms and the live request/response models -/

/-- `interface PackedRequest`. -/
structure PackedRequest where
  method : String
  url : String
  headers : List (String × String)
  bodyId : Option Nat
deriving Repr, DecidableEq

/-- `interface PackedResponse` (`bodyBytes` is the `ArrayBuffer` contents). -/
structure PackedResponse where
  status : Nat
  headers : List (String × String)
  bodyId : Option Nat
  bodyText : Option String
  bodyBytes : Option (List Nat)
deriving Repr, DecidableEq

/-- A live `Request`: `method`/`url` as its accessors report them, `headers`
as `headers.entries()` enumerates them, `body` its (nullable) stream. -/
structure RequestModel where
  method : String
  url : String
  headers : List (String × String)
  body : Option StreamModel
deriving Repr, DecidableEq

/-- `RequestInfo | RequestInit` first argument of `packRequest`: either a
request-like object or a URL string. -/
inductive RequestInfo where
  | request (r : RequestModel)
  | url (u : String)
deriving Repr, DecidableEq

/-- The fields of a `RequestInit` options bag that `packRequest` inspects.
`none` everywhere models a key left `undefined`; only presence matters for the
rejected options, so their payloads are reduced to the data the code reads. -/
structure RequestInit where
  method : Option String := none
  headers : Option (List (String × String)) := none
  body : Option Unit := none
  cache : Option String := none
  credentials : Option String := none
  integrity : Option String := none
  keepalive : Option Bool := none
  mode : Option String := none
  redirect : Option String := none
  referrer : Option String := none
  referrerPolicy : Option String := none
  signal : Option Unit := none
  window : Option Unit := none
deriving Repr, DecidableEq

/-- The `bodyInit` of a `DenoflareResponse`: a plain string, a stream, or
anything else (which `packResponse` rejects). -/
inductive SyntheticBodyInit where
  | str (s : String)
  | stream (s : StreamModel)
  | other
deriving Repr, DecidableEq

/-- A live `Response` as `packResponse` observes it: `synthetic = some init`
models `DenoflareResponse.is(response)` holding with that `bodyInit`;
`body` is the (nullable) body stream of a normal response. -/
structure ResponseModel where
  status : Nat
  headers : List (String × String)
  synthetic : Option SyntheticBodyInit
  body : Option StreamModel
deriving Repr, DecidableEq

/-- `response.arrayBuffer()`: the concatenated bytes of the body (empty for a
null body). -/
def ResponseModel.arrayBuffer (r : ResponseModel) : List Nat :=
  (r.body.getD []).flatten

/-! ## The wire codec -/

/-- `packResponse(response, bodies)`. `maxLen` stands for
`Constants.MAX_CONTENT_LENGTH_TO_PACK_OVER_RPC`. Modelled from the spec:
`constants.ts` is not among the provided sources; the spec fixes no numeric
value for the inlining threshold, so it is a parameter here.
A `DenoflareResponse` with a string `bodyInit` packs as `bodyText`; one with a
stream `bodyInit` registers it; any other `bodyInit` throws. Otherwise
`parseInt(headers.get('content-length') || '-1')` decides: in `(-1, maxLen]`
the body is buffered into `bodyBytes`, else the (nullable) body is
registered. -/
def packResponse (maxLen : Int) (response : ResponseModel) (bodies : Bodies) :
    Except BridgeError (PackedResponse × Bodies) :=
  let status := response.status
  let headers := response.headers
  match response.synthetic with
  | some (.str s) =>
      .ok ({ status := status, headers := headers, bodyId := none,
             bodyText := some s, bodyBytes := none }, bodies)
  | some (.stream st) =>
      let r := bodies.computeBodyId (some st)
      .ok ({ status := status, headers := headers, bodyId := r.1,
             bodyText := none, bodyBytes := none }, r.2)
  | some .other => .error .malformedSyntheticBody
  | none =>
      let contentLength := parseIntJs (jsOrString (headersGet headers ("content-length")) "-1")
      let inline : Bool :=
        match contentLength with
        | some n => decide (-1 < n) && decide (n ≤ maxLen)
        | none => false
      if inline then
        .ok ({ status := status, headers := headers, bodyId := none,
               bodyText := none, bodyBytes := some response.arrayBuffer }, bodies)
      else
        let r := bodies.computeBodyId response.body
        .ok ({ status := status, headers := headers, bodyId := r.1,
               bodyText := none, bodyBytes := none }, r.2)

/-- The body of an unpacked `Response`: the `BodyInit` handed to
`new Response(body, ...)`. -/
inductive ResponseBody where
  | text (s : String)
  | bytes (bs : List Nat)
  | stream (s : StreamModel)
deriving Repr, DecidableEq

/-- The live `Response` built by `unpackResponse`. -/
structure ResponseOut where
  status : Nat
  headers : List (String × String)
  body : Option ResponseBody
deriving Repr, DecidableEq

/-- `unpackResponse(packed, bodyResolver)`: headers via `new Headers`, body by
the precedence `bodyText`, else `bodyBytes`, else the resolver's stream when a
`bodyId` reference is present, else absent. -/
def unpackResponse (packed : PackedResponse) (bodyResolver : Nat → StreamModel) :
    ResponseOut :=
  let body : Option ResponseBody :=
    match packed.bodyText with
    | some t => some (.text t)
    | none =>
        match packed.bodyBytes with
        | some bs => some (.bytes bs)
        | none =>
            match packed.bodyId with
            | none => none
            | some id => some (.stream (bodyResolver id))
  { status := packed.status, headers := headersNorm packed.headers, body := body }

/-- `packRequest(info, init, bodies)`. A request-like object with no `init`
is copied field-for-field and its body registered; a URL string takes the
options-bag path, which rejects every option with undefined cross-process
semantics; any other shape (a request-like object *with* an `init`) throws
`packRequest: implement ...`. -/
def packRequest (info : RequestInfo) (init : Option RequestInit) (bodies : Bodies) :
    Except BridgeError (PackedRequest × Bodies) :=
  match info, init with
  | .request r, none =>
      let p := bodies.computeBodyId r.body
      .ok ({ method := r.method, url := r.url, headers := r.headers, bodyId := p.1 }, p.2)
  | .url u, init =>
      let method := match init with
        | some i => i.method.getD ("GET")
        | none => "GET"
      let headers : List (String × String) := match init with
        | some i => match i.headers with
          | some hs => headersNorm hs
          | none => []
        | none => []
      match init with
      | some i =>
          if i.body.isSome then .error (.unsupportedRequestOption ("body"))
          else if i.cache.isSome then .error (.unsupportedRequestOption ("cache"))
          else if i.credentials.isSome then .error (.unsupportedRequestOption ("credentials"))
          else if i.integrity.isSome then .error (.unsupportedRequestOption ("integrity"))
          else if i.keepalive.isSome then .error (.unsupportedRequestOption ("keepalive"))
          else if i.mode.isSome then .error (.unsupportedRequestOption ("mode"))
          else if (match i.redirect with
                   | some rd => decide (rd ≠ "follow")
                   | none => false : Bool) then .error (.unsupportedRequestOption ("redirect"))
          else if i.referrer.isSome then .error (.unsupportedRequestOption ("referrer"))
          else if i.referrerPolicy.isSome then .error (.unsupportedRequestOption ("referrerPolicy"))
          else if i.signal.isSome then .error (.unsupportedRequestOption ("signal"))
          else if i.window.isSome then .error (.unsupportedRequestOption ("window"))
          else .ok ({ method := method, url := u, headers := headers, bodyId := none }, bodies)
      | none => .ok ({ method := method, url := u, headers := headers, bodyId := none }, bodies)
  | .request _, some _ => .error .unsupportedRequestShape

/-- `unpackRequest(packedRequest, bodyResolver)`: build
`new Request(url, { method, headers, body })`, where `new Headers` normalizes
the header pairs, the `Request` constructor normalizes the method, the URL
string is kept (URL parsing of an already-serialized absolute URL is the
identity), and the body, when a reference is present, is the resolver's
stream. -/
def unpackRequest (packedRequest : PackedRequest) (bodyResolver : Nat → StreamModel) :
    RequestModel :=
  { method := normalizeMethod packedRequest.method
    url := packedRequest.url
    headers := headersNorm packedRequest.headers
    body := packedRequest.bodyId.map bodyResolver }

/-! ## Caller-side body resolver over RPC (`makeBodyResolverOverRpc`) -/

/-- The RPC channel as the resolver's stream sees it: `pending` holds the
`read-body-chunk` replies the remote side will return, in order, and
`callLog` counts the `sendRequest('read-body-chunk', ...)` calls issued. -/
structure RpcChannelModel where
  pending : List ReadResult
  callLog : Nat
deriving Repr, DecidableEq

/-- One `channel.sendRequest('read-body-chunk', { bodyId }, ...)`: consume the
next pending reply (a drained remote answers `{value: undefined, done: true}`)
and log the call. -/
def RpcChannelModel.sendReadBodyChunk (c : RpcChannelModel) :
    ReadResult × RpcChannelModel :=
  match c.pending with
  | [] => (⟨none, true⟩, { pending := [], callLog := c.callLog + 1 })
  | r :: rest => (r, { pending := rest, callLog := c.callLog + 1 })

/-- The controller state of the `ReadableStream` built by
`makeBodyResolverOverRpc`: chunks enqueued so far, and whether
`controller.close()` has run. -/
structure StreamCtrlState where
  enqueued : List Chunk
  closed : Bool
deriving Repr, DecidableEq

/-- The stream's `start(controller)` callback: it does nothing (its only
statement is a commented-out log), so neither the channel nor the controller
changes. -/
def bodyResolverStart (c : RpcChannelModel) (s : StreamCtrlState) :
    RpcChannelModel × StreamCtrlState :=
  (c, s)

/-- The stream's `pull(controller)` callback, run once per local read request:
send one `read-body-chunk` call, enqueue `value` if it is present, and close
the controller exactly when `done` is true. -/
def bodyResolverPull (c : RpcChannelModel) (s : StreamCtrlState) :
    RpcChannelModel × StreamCtrlState :=
  let r := c.sendReadBodyChunk
  (r.2,
    { enqueued := s.enqueued ++ (match r.1.value with | some v => [v] | none => [])
      closed := s.closed || r.1.done })

/-! ## Iterated registry operations (for whole-lifetime claims) -/

/-- `n` successive `readBodyChunk(id)` calls, collecting the results; stops
with the error if any call throws. -/
def Bodies.pullN (b : Bodies) (id : Nat) :
    Nat → Except BridgeError (List ReadResult × Bodies)
  | 0 => .ok ([], b)
  | n + 1 =>
      match b.readBodyChunk id with
      | .error e => .error e
      | .ok (r, b') =>
          match b'.pullN id n with
          | .error e => .error e
          | .ok (rs, b'') => .ok (r :: rs, b'')

/-- One interaction with the registry during a process lifetime: a
`computeBodyId` call or a `readBodyChunk` call (whose result, including a
thrown `Bad bodyId`, is discarded here — only the state evolution matters). -/
inductive BodiesOp where
  | register (body : Option StreamModel)
  | pull (id : Nat)
deriving Repr, DecidableEq

/-- Apply one operation to the registry. -/
def Bodies.applyOp (b : Bodies) (op : BodiesOp) : Bodies :=
  match op with
  | .register body => (b.computeBodyId body).2
  | .pull id =>
      match b.readBodyChunk id with
      | .ok (_, b') => b'
      | .error _ => b

/-- Run a lifetime of operations, collecting the identifier returned by each
`register` call whose body was present. -/
def Bodies.registeredIds (b : Bodies) : List BodiesOp → List Nat
  | [] => []
  | op :: rest =>
      match op with
      | .register body =>
          match b.computeBodyId body with
          | (some id, b') => id :: b'.registeredIds rest
          | (none, b') => b'.registeredIds rest
      | .pull _ => (b.applyOp op).registeredIds rest

/-- The number of `register` operations with a present body. -/
def countPresentRegisters : List BodiesOp → Nat
  | [] => 0
  | .register (some _) :: rest => countPresentRegisters rest + 1
  | .register none :: rest => countPresentRegisters rest
  | .pull _ :: rest => countPresentRegisters rest

/-! ## Claim theorems -/

/-- The number of body-representation fields set in a packed response. -/
def PackedResponse.bodyFieldCount (p : PackedResponse) : Nat :=
  (if p.bodyId.isSome then 1 else 0) + (if p.bodyText.isSome then 1 else 0)
    + (if p.bodyBytes.isSome then 1 else 0)

/-- C4: every packed response produced by `packResponse` has at most one of
`bodyId`, `bodyText`, `bodyBytes` set, and when all three are unset the
response being packed had no body. -/
theorem packResponse_at_most_one_body_field
    (maxLen : Int) (response : ResponseModel) (bodies : Bodies)
    (p : PackedResponse) (b' : Bodies)
    (h : packResponse maxLen response bodies = .ok (p, b')) :
    p.bodyFieldCount ≤ 1 ∧
      (p.bodyId = none → p.bodyText = none → p.bodyBytes = none →
        response.body = none) := by
  unfold packResponse at h
  rcases hsyn : response.synthetic with _ | init
  · rw [hsyn] at h
    simp only [] at h
    by_cases hinl : (match parseIntJs (jsOrString (headersGet response.headers ("content-length")) "-1") with
        | some n => decide (-1 < n) && decide (n ≤ maxLen)
        | none => false : Bool) = true
    · rw [if_pos hinl] at h
      cases h
      simp [PackedResponse.bodyFieldCount]
    · rw [if_neg hinl] at h
      rcases hbody : response.body with _ | st
      · rw [hbody] at h
        simp only [Bodies.computeBodyId] at h
        cases h
        simp [PackedResponse.bodyFieldCount]
      · rw [hbody] at h
        simp only [Bodies.computeBodyId] at h
        cases h
        simp [PackedResponse.bodyFieldCount]
  · rw [hsyn] at h
    rcases init with s | st
    · cases h
      simp [PackedResponse.bodyFieldCount]
    · simp only [Bodies.computeBodyId] at h
      cases h
      simp [PackedResponse.bodyFieldCount]
    · cases h

/-- Witness for C4: the invariant holds at a concrete synthetic string
response. -/
theorem packResponse_at_most_one_body_field_witness :
    ({ status := 200, headers := [], bodyId := none, bodyText := some ("hi"),
       bodyBytes := none } : PackedResponse).bodyFieldCount ≤ 1 := by
  exact (packResponse_at_most_one_body_field 1000
    { status := 200, headers := [], synthetic := some (.str ("hi")), body := none }
    Bodies.init _ _ rfl).1

/-- C9: a request-like object passed together with a defined options bag does
not match either supported shape, so `packRequest` fails with the
unsupported-shape error. -/
theorem packRequest_request_with_init_rejected
    (r : RequestModel) (i : RequestInit) (bodies : Bodies) :
    packRequest (.request r) (some i) bodies = .error .unsupportedRequestShape :=
  rfl

/-- C7: the RPC-backed body stream performs no channel call in `start`; each
`pull` issues exactly one `read-body-chunk` call, enqueues the reply's value
when present, and closes the controller exactly when the reply says `done`. -/
theorem bodyResolver_one_call_per_pull
    (c : RpcChannelModel) (s : StreamCtrlState) :
    bodyResolverStart c s = (c, s)
    ∧ (bodyResolverPull c s).1.callLog = c.callLog + 1
    ∧ (bodyResolverPull c s).2.enqueued
        = s.enqueued ++ (match c.sendReadBodyChunk.1.value with
                         | some v => [v] | none => [])
    ∧ (bodyResolverPull c s).2.closed = (s.closed || c.sendReadBodyChunk.1.done) := by
  refine ⟨rfl, ?_, rfl, rfl⟩
  unfold bodyResolverPull RpcChannelModel.sendReadBodyChunk
  cases c.pending <;> rfl

/-- C8: `unpackResponse` rebuilds the headers through `new Headers` and picks
the body by precedence: `bodyText` if set, else `bodyBytes` if set, else the
resolver's stream if a reference is set, else no body. -/
theorem unpackResponse_body_precedence
    (packed : PackedResponse) (bodyResolver : Nat → StreamModel) :
    (unpackResponse packed bodyResolver).status = packed.status
    ∧ (unpackResponse packed bodyResolver).headers = headersNorm packed.headers
    ∧ (∀ t, packed.bodyText = some t →
        (unpackResponse packed bodyResolver).body = some (.text t))
    ∧ (∀ bs, packed.bodyText = none → packed.bodyBytes = some bs →
        (unpackResponse packed bodyResolver).body = some (.bytes bs))
    ∧ (∀ id, packed.bodyText = none → packed.bodyBytes = none →
        packed.bodyId = some id →
        (unpackResponse packed bodyResolver).body = some (.stream (bodyResolver id)))
    ∧ (packed.bodyText = none → packed.bodyBytes = none → packed.bodyId = none →
        (unpackResponse packed bodyResolver).body = none) := by
  refine ⟨rfl, rfl, ?_, ?_, ?_, ?_⟩
  · intro t ht; simp [unpackResponse, ht]
  · intro bs ht hb; simp [unpackResponse, ht, hb]
  · intro id ht hb hi; simp [unpackResponse, ht, hb, hi]
  · intro ht hb hi; simp [unpackResponse, ht, hb, hi]

/-- Witness for C8: precedence evaluated at a concrete packed response whose
`bodyText` is set. -/
theorem unpackResponse_body_precedence_witness :
    (unpackResponse
      { status := 200, headers := [], bodyId := none, bodyText := some ("ok"),
        bodyBytes := none } (fun _ => [])).body = some (.text ("ok")) :=
  (unpackResponse_body_precedence
    { status := 200, headers := [], bodyId := none, bodyText := some ("ok"),
      bodyBytes := none } (fun _ => [])).2.2.1 ("ok") rfl

/-- C10: a non-synthetic response with a null body whose `content-length`
header is absent or non-numeric packs successfully, with `bodyId`, `bodyText`
and `bodyBytes` all unset and the registry untouched (registering a null body
allocates nothing). -/
theorem packResponse_null_body_no_reference
    (maxLen : Int) (response : ResponseModel) (bodies : Bodies)
    (hsyn : response.synthetic = none) (hbody : response.body = none)
    (hcl : headersGet response.headers ("content-length") = none
         ∨ parseIntJs (jsOrString (headersGet response.headers ("content-length")) "-1")
             = none) :
    packResponse maxLen response bodies
      = .ok ({ status := response.status, headers := response.headers,
               bodyId := none, bodyText := none, bodyBytes := none }, bodies) := by
  unfold packResponse
  rw [hsyn]
  have hinl : (match parseIntJs (jsOrString (headersGet response.headers ("content-length")) "-1") with
      | some n => decide (-1 < n) && decide (n ≤ maxLen)
      | none => false : Bool) = false := by
    rcases hcl with hcl | hcl
    · rw [hcl]
      simp [jsOrString, parseIntJs]
    · rw [hcl]
  simp only [hinl, Bool.false_eq_true, if_false, hbody, Bodies.computeBodyId]

/-- Witness for C10: concrete non-synthetic response with no `content-length`
header and a null body. -/
theorem packResponse_null_body_no_reference_witness :
    packResponse 1000000
      { status := 204, headers := [], synthetic := none, body := none }
      Bodies.init
      = .ok ({ status := 204, headers := [], bodyId := none,
               bodyText := none, bodyBytes := none }, Bodies.init) :=
  packResponse_null_body_no_reference 1000000
    { status := 204, headers := [], synthetic := none, body := none }
    Bodies.init rfl rfl (.inl rfl)

/-- The URL-string packing path on an options bag that sets none of the
rejected options: method and flattened headers are copied, the registry is
untouched. -/
theorem packRequest_url_some_clean (u : String) (i : RequestInit) (b : Bodies)
    (h1 : i.body = none) (h2 : i.cache = none) (h3 : i.credentials = none)
    (h4 : i.integrity = none) (h5 : i.keepalive = none) (h6 : i.mode = none)
    (h7 : i.redirect = none ∨ i.redirect = some ("follow"))
    (h8 : i.referrer = none) (h9 : i.referrerPolicy = none)
    (h10 : i.signal = none) (h11 : i.window = none) :
    packRequest (.url u) (some i) b
      = .ok ({ method := i.method.getD ("GET"), url := u,
               headers := match i.headers with
                          | some hs => headersNorm hs
                          | none => ([] : List (String × String)),
               bodyId := none }, b) := by
  rcases h7 with h7 | h7 <;>
    simp [packRequest, h1, h2, h3, h4, h5, h6, h7, h8, h9, h10, h11]

/-- C5: packing from a URL string defaults the method to `GET`, copies a
supplied `method` and flattened `headers`, and rejects each option with
undefined cross-process semantics — `body`, `cache`, `credentials`,
`integrity`, `keepalive`, `mode`, a non-`follow` `redirect`, `referrer`,
`referrerPolicy`, `signal`, `window` — naming the offending option (options
are checked in that order, so each conjunct assumes the earlier ones absent). -/
theorem packRequest_url_options (u : String) (i : RequestInit) (b : Bodies) :
    packRequest (.url u) none b
      = .ok ({ method := "GET", url := u, headers := [], bodyId := none }, b)
    ∧ (i.body = none → i.cache = none → i.credentials = none → i.integrity = none →
       i.keepalive = none → i.mode = none →
       (i.redirect = none ∨ i.redirect = some ("follow")) →
       i.referrer = none → i.referrerPolicy = none → i.signal = none →
       i.window = none →
       packRequest (.url u) (some i) b
         = .ok ({ method := i.method.getD ("GET"), url := u,
                  headers := match i.headers with
                             | some hs => headersNorm hs
                             | none => ([] : List (String × String)),
                  bodyId := none }, b))
    ∧ (i.body ≠ none →
        packRequest (.url u) (some i) b = .error (.unsupportedRequestOption ("body")))
    ∧ (i.body = none → i.cache ≠ none →
        packRequest (.url u) (some i) b = .error (.unsupportedRequestOption ("cache")))
    ∧ (i.body = none → i.cache = none → i.credentials ≠ none →
        packRequest (.url u) (some i) b
          = .error (.unsupportedRequestOption ("credentials")))
    ∧ (i.body = none → i.cache = none → i.credentials = none → i.integrity ≠ none →
        packRequest (.url u) (some i) b
          = .error (.unsupportedRequestOption ("integrity")))
    ∧ (i.body = none → i.cache = none → i.credentials = none → i.integrity = none →
       i.keepalive ≠ none →
        packRequest (.url u) (some i) b
          = .error (.unsupportedRequestOption ("keepalive")))
    ∧ (i.body = none → i.cache = none → i.credentials = none → i.integrity = none →
       i.keepalive = none → i.mode ≠ none →
        packRequest (.url u) (some i) b = .error (.unsupportedRequestOption ("mode")))
    ∧ (∀ rd, i.body = none → i.cache = none → i.credentials = none →
       i.integrity = none → i.keepalive = none → i.mode = none →
       i.redirect = some rd → rd ≠ "follow" →
        packRequest (.url u) (some i) b
          = .error (.unsupportedRequestOption ("redirect")))
    ∧ (i.body = none → i.cache = none → i.credentials = none → i.integrity = none →
       i.keepalive = none → i.mode = none →
       (i.redirect = none ∨ i.redirect = some ("follow")) → i.referrer ≠ none →
        packRequest (.url u) (some i) b
          = .error (.unsupportedRequestOption ("referrer")))
    ∧ (i.body = none → i.cache = none → i.credentials = none → i.integrity = none →
       i.keepalive = none → i.mode = none →
       (i.redirect = none ∨ i.redirect = some ("follow")) → i.referrer = none →
       i.referrerPolicy ≠ none →
        packRequest (.url u) (some i) b
          = .error (.unsupportedRequestOption ("referrerPolicy")))
    ∧ (i.body = none → i.cache = none → i.credentials = none → i.integrity = none →
       i.keepalive = none → i.mode = none →
       (i.redirect = none ∨ i.redirect = some ("follow")) → i.referrer = none →
       i.referrerPolicy = none → i.signal ≠ none →
        packRequest (.url u) (some i) b
          = .error (.unsupportedRequestOption ("signal")))
    ∧ (i.body = none → i.cache = none → i.credentials = none → i.integrity = none →
       i.keepalive = none → i.mode = none →
       (i.redirect = none ∨ i.redirect = some ("follow")) → i.referrer = none →
       i.referrerPolicy = none → i.signal = none → i.window ≠ none →
        packRequest (.url u) (some i) b
          = .error (.unsupportedRequestOption ("window"))) := by
  refine ⟨rfl, ?_, ?_, ?_, ?_, ?_, ?_, ?_, ?_, ?_, ?_, ?_, ?_⟩
  · intro h1 h2 h3 h4 h5 h6 h7 h8 h9 h10 h11
    exact packRequest_url_some_clean u i b h1 h2 h3 h4 h5 h6 h7 h8 h9 h10 h11
  · intro h1
    simp [packRequest, Option.isSome_iff_ne_none.mpr h1]
  · intro h1 h2
    simp [packRequest, h1, Option.isSome_iff_ne_none.mpr h2]
  · intro h1 h2 h3
    simp [packRequest, h1, h2, Option.isSome_iff_ne_none.mpr h3]
  · intro h1 h2 h3 h4
    simp [packRequest, h1, h2, h3, Option.isSome_iff_ne_none.mpr h4]
  · intro h1 h2 h3 h4 h5
    simp [packRequest, h1, h2, h3, h4, Option.isSome_iff_ne_none.mpr h5]
  · intro h1 h2 h3 h4 h5 h6
    simp [packRequest, h1, h2, h3, h4, h5, Option.isSome_iff_ne_none.mpr h6]
  · intro rd h1 h2 h3 h4 h5 h6 h7 h8
    simp [packRequest, h1, h2, h3, h4, h5, h6, h7, h8]
  · intro h1 h2 h3 h4 h5 h6 h7 h8
    rcases h7 with h7 | h7 <;>
      simp [packRequest, h1, h2, h3, h4, h5, h6, h7,
        Option.isSome_iff_ne_none.mpr h8]
  · intro h1 h2 h3 h4 h5 h6 h7 h8 h9
    rcases h7 with h7 | h7 <;>
      simp [packRequest, h1, h2, h3, h4, h5, h6, h7, h8,
        Option.isSome_iff_ne_none.mpr h9]
  · intro h1 h2 h3 h4 h5 h6 h7 h8 h9 h10
    rcases h7 with h7 | h7 <;>
      simp [packRequest, h1, h2, h3, h4, h5, h6, h7, h8, h9,
        Option.isSome_iff_ne_none.mpr h10]
  · intro h1 h2 h3 h4 h5 h6 h7 h8 h9 h10 h11
    rcases h7 with h7 | h7 <;>
      simp [packRequest, h1, h2, h3, h4, h5, h6, h7, h8, h9, h10,
        Option.isSome_iff_ne_none.mpr h11]

/-- Witness for C5: default method at a concrete URL; a copied method and
headers; and the `body` and `signal` rejections at concrete option bags. -/
theorem packRequest_url_options_witness :
    packRequest (.url ("https://example.com/")) none Bodies.init
      = .ok ({ method := "GET", url := "https://example.com/", headers := [],
               bodyId := none }, Bodies.init)
    ∧ packRequest (.url ("https://example.com/"))
        (some { method := some ("POST"), headers := some [("A", "1")] }) Bodies.init
      = .ok ({ method := "POST", url := "https://example.com/",
               headers := [("a", "1")], bodyId := none }, Bodies.init)
    ∧ packRequest (.url ("https://example.com/")) (some { body := some () }) Bodies.init
      = .error (.unsupportedRequestOption ("body"))
    ∧ packRequest (.url ("https://example.com/")) (some { signal := some () }) Bodies.init
      = .error (.unsupportedRequestOption ("signal")) := by
  refine ⟨(packRequest_url_options ("https://example.com/") {} Bodies.init).1, ?_, ?_, ?_⟩
  · have h := (packRequest_url_options ("https://example.com/")
      { method := some ("POST"), headers := some [("A", "1")] } Bodies.init).2.1
      rfl rfl rfl rfl rfl rfl (.inl rfl) rfl rfl rfl rfl
    rw [h]
    rfl
  · exact (packRequest_url_options ("https://example.com/") { body := some () }
      Bodies.init).2.2.1 (by decide)
  · exact (packRequest_url_options ("https://example.com/") { signal := some () }
      Bodies.init).2.2.2.2.2.2.2.2.2.2.2.1 rfl rfl rfl rfl rfl rfl (.inl rfl) rfl rfl
      (by decide)

/-- C1 counterexample: a non-synthetic response whose `content-length` header
is absent but whose body is null packs with *no* body reference (`bodyId` is
unset), contradicting the claim that an absent `content-length` always yields
a body reference. -/
theorem packResponse_absent_length_no_reference_counterexample :
    packResponse 1000000
      { status := 200, headers := [], synthetic := none, body := none } Bodies.init
      = .ok ({ status := 200, headers := [], bodyId := none, bodyText := none,
               bodyBytes := none }, Bodies.init)
    ∧ headersGet
        ({ status := 200, headers := [], synthetic := none,
           body := none } : ResponseModel).headers ("content-length") = none :=
  ⟨rfl, rfl⟩

/-- C1 (amended): a synthetic string body packs as `bodyText`; a synthetic
stream body packs as a reference; a non-synthetic response with a present,
non-negative `content-length` at or below the threshold packs its buffered
bytes inline with no reference; with `content-length` absent or above the
threshold it packs no `bodyBytes` and carries a reference exactly when the
response body is non-null. -/
theorem packResponse_body_representation
    (maxLen : Int) (r : ResponseModel) (b : Bodies) :
    (∀ s, r.synthetic = some (.str s) →
      packResponse maxLen r b
        = .ok ({ status := r.status, headers := r.headers, bodyId := none,
                 bodyText := some s, bodyBytes := none }, b))
    ∧ (∀ st, r.synthetic = some (.stream st) →
        ∃ b', packResponse maxLen r b
          = .ok ({ status := r.status, headers := r.headers,
                   bodyId := some b.nextBodyId, bodyText := none,
                   bodyBytes := none }, b'))
    ∧ (∀ v n, r.synthetic = none →
        headersGet r.headers ("content-length") = some v → parseIntJs v = some n →
        0 ≤ n → n ≤ maxLen →
        packResponse maxLen r b
          = .ok ({ status := r.status, headers := r.headers, bodyId := none,
                   bodyText := none, bodyBytes := some r.arrayBuffer }, b))
    ∧ (r.synthetic = none →
        (headersGet r.headers ("content-length") = none
          ∨ (∃ n, parseIntJs (jsOrString (headersGet r.headers ("content-length")) "-1")
                    = some n
               ∧ maxLen < n)) →
        ∃ p b', packResponse maxLen r b = .ok (p, b')
          ∧ p.bodyText = none ∧ p.bodyBytes = none
          ∧ (p.bodyId.isSome ↔ r.body.isSome)) := by
  refine ⟨?_, ?_, ?_, ?_⟩
  · intro s hs
    simp [packResponse, hs]
  · intro st hs
    refine ⟨{ b with bodies := ainsert b.bodies b.nextBodyId st
                     nextBodyId := b.nextBodyId + 1 }, ?_⟩
    simp [packResponse, hs, Bodies.computeBodyId]
  · intro v n hsyn hget hparse h0 hle
    have hv : v ≠ "" := by
      intro hv
      rw [hv] at hparse
      exact Option.noConfusion hparse
    have hjs : jsOrString (headersGet r.headers ("content-length")) "-1" = v := by
      simp [jsOrString, hget, hv]
    have hinl : (match parseIntJs (jsOrString (headersGet r.headers ("content-length")) "-1") with
        | some n => decide (-1 < n) && decide (n ≤ maxLen)
        | none => false : Bool) = true := by
      rw [hjs, hparse]
      simp only [Bool.and_eq_true, decide_eq_true_eq]
      exact ⟨lt_of_lt_of_le (by norm_num) h0, hle⟩
    unfold packResponse
    rw [hsyn]
    simp only [hinl, if_true]
  · intro hsyn hcl
    have hinl : (match parseIntJs (jsOrString (headersGet r.headers ("content-length")) "-1") with
        | some n => decide (-1 < n) && decide (n ≤ maxLen)
        | none => false : Bool) = false := by
      rcases hcl with hcl | ⟨n, hn, hgt⟩
      · rw [hcl]
        have hp : parseIntJs (jsOrString none ("-1")) = some (-1) := rfl
        rw [hp]
        simp
      · rw [hn]
        simp only [Bool.and_eq_false_iff, decide_eq_false_iff_not, not_le, not_lt]
        right
        exact hgt
    unfold packResponse
    rw [hsyn]
    simp only [hinl, Bool.false_eq_true, if_false]
    rcases hbody : r.body with _ | st <;>
      · simp only [Bodies.computeBodyId]
        exact ⟨_, _, rfl, rfl, rfl, by simp⟩

/-- Witness for C1 (amended): a concrete 3-byte body with `content-length: 3`
under a threshold of 1000 packs inline as `bodyBytes`. -/
theorem packResponse_body_representation_witness :
    packResponse 1000
      { status := 200, headers := [("content-length", "3")], synthetic := none,
        body := some [[97, 98, 99]] } Bodies.init
      = .ok ({ status := 200, headers := [("content-length", "3")], bodyId := none,
               bodyText := none, bodyBytes := some [97, 98, 99] }, Bodies.init) := by
  have h := (packResponse_body_representation 1000
    { status := 200, headers := [("content-length", "3")], synthetic := none,
      body := some [[97, 98, 99]] } Bodies.init).2.2.1 ("3") 3 rfl (by decide) (by decide)
    (by decide) (by decide)
  exact h

/-- C6: packing then unpacking a bodiless request (the stub resolver is an
arbitrary function — it is never consulted, as no reference exists) preserves
method, URL, and header pairs, for each supported input shape. A live request
object already carries a constructor-normalized method and `Headers`-normalized
header pairs, which the fixed-point hypotheses record; for the URL-string
shapes the original request is the one the arguments describe. -/
theorem packRequest_unpackRequest_roundtrip :
    (∀ (r : RequestModel) (b b' : Bodies) (resolver : Nat → StreamModel)
       (pr : PackedRequest),
       r.body = none → normalizeMethod r.method = r.method →
       headersNorm r.headers = r.headers →
       packRequest (.request r) none b = .ok (pr, b') →
       unpackRequest pr resolver = r)
    ∧ (∀ (u : String) (b b' : Bodies) (resolver : Nat → StreamModel)
         (pr : PackedRequest),
         packRequest (.url u) none b = .ok (pr, b') →
         unpackRequest pr resolver
           = { method := "GET", url := u, headers := [], body := none })
    ∧ (∀ (u : String) (i : RequestInit) (b b' : Bodies)
         (resolver : Nat → StreamModel) (pr : PackedRequest),
         i.body = none → i.cache = none → i.credentials = none →
         i.integrity = none → i.keepalive = none → i.mode = none →
         (i.redirect = none ∨ i.redirect = some ("follow")) →
         i.referrer = none → i.referrerPolicy = none → i.signal = none →
         i.window = none →
         normalizeMethod (i.method.getD ("GET")) = i.method.getD ("GET") →
         headersNorm (headersNorm (i.headers.getD []))
           = headersNorm (i.headers.getD []) →
         packRequest (.url u) (some i) b = .ok (pr, b') →
         unpackRequest pr resolver
           = { method := i.method.getD ("GET"), url := u,
               headers := headersNorm (i.headers.getD []), body := none }) := by
  refine ⟨?_, ?_, ?_⟩
  · intro r b b' resolver pr hbody hm hh hpack
    obtain ⟨m, u, hs, bd⟩ := r
    simp only at hbody hm hh
    subst hbody
    simp only [packRequest, Bodies.computeBodyId, Except.ok.injEq, Prod.mk.injEq] at hpack
    obtain ⟨hpr, -⟩ := hpack
    subst hpr
    simp [unpackRequest, hm, hh]
  · intro u b b' resolver pr hpack
    simp only [packRequest, Except.ok.injEq, Prod.mk.injEq] at hpack
    obtain ⟨hpr, -⟩ := hpack
    subst hpr
    simp [unpackRequest, normalizeMethod, strUpper, headersNorm, dedupKeepFirst,
      dedupKeepFirstAux, sortStrings]
  · intro u i b b' resolver pr h1 h2 h3 h4 h5 h6 h7 h8 h9 h10 h11 hm hh hpack
    have hpack' : packRequest (.url u) (some i) b
        = .ok ({ method := i.method.getD ("GET"), url := u,
                 headers := match i.headers with
                            | some hs => headersNorm hs
                            | none => ([] : List (String × String)),
                 bodyId := none }, b) :=
      packRequest_url_some_clean u i b h1 h2 h3 h4 h5 h6 h7 h8 h9 h10 h11
    rw [hpack'] at hpack
    simp only [Except.ok.injEq, Prod.mk.injEq] at hpack
    obtain ⟨hpr, -⟩ := hpack
    subst hpr
    cases hhs : i.headers with
    | none =>
        simp only [hhs]
        show ({ method := normalizeMethod (i.method.getD ("GET")), url := u,
                headers := headersNorm [], body := none } : RequestModel)
          = { method := i.method.getD ("GET"), url := u, headers := headersNorm [],
              body := none }
        rw [hm]
    | some hs =>
        simp only [hhs] at hh ⊢
        simp only [Option.getD] at hh
        show ({ method := normalizeMethod (i.method.getD ("GET")), url := u,
                headers := headersNorm (headersNorm hs), body := none } : RequestModel)
          = { method := i.method.getD ("GET"), url := u, headers := headersNorm hs,
              body := none }
        rw [hm, hh]

/-- Witness for C6: round trip of a concrete bodiless request object. -/
theorem packRequest_unpackRequest_roundtrip_witness :
    unpackRequest
      { method := "GET", url := "https://example.com/a",
        headers := [("accept", "text/html")], bodyId := none } (fun _ => [])
      = { method := "GET", url := "https://example.com/a",
          headers := [("accept", "text/html")], body := none } :=
  packRequest_unpackRequest_roundtrip.1
    { method := "GET", url := "https://example.com/a",
      headers := [("accept", "text/html")], body := none }
    Bodies.init Bodies.init (fun _ => [])
    { method := "GET", url := "https://example.com/a",
      headers := [("accept", "text/html")], bodyId := none }
    rfl (by decide) (by decide) rfl

/-- Pulling with a cached reader holding `rem` chunks takes `rem.length + 1`
pulls: each pull yields exactly the next chunk, the last yields the terminal
`done` result, and both registry maps drop the id. -/
theorem pullN_of_reader (rem : List Chunk) :
    ∀ (b : Bodies) (id : Nat), alookup b.readers id = some rem →
    b.pullN id (rem.length + 1)
      = .ok (rem.map (fun c => ⟨some c, false⟩) ++ [⟨none, true⟩],
             { b with readers := aerase b.readers id
                      bodies := aerase b.bodies id }) := by
  induction rem with
  | nil =>
      intro b id h
      simp [Bodies.pullN, Bodies.readBodyChunk, h, Bodies.readStep]
  | cons c rest ih =>
      intro b id h
      have hread : b.readBodyChunk id
          = .ok (⟨some c, false⟩, { b with readers := ainsert b.readers id rest }) := by
        simp [Bodies.readBodyChunk, h, Bodies.readStep]
      have hnext := ih { b with readers := ainsert b.readers id rest } id
        (alookup_ainsert_self b.readers id rest)
      show b.pullN id (rest.length + 1 + 1) = _
      rw [Bodies.pullN, hread]
      dsimp only
      rw [hnext]
      dsimp only
      simp [aerase_ainsert_self]

/-- `pullN` on a successor count only looks at `readBodyChunk`, so two states
that read the same first chunk pull identically. -/
theorem pullN_congr_read (b b2 : Bodies) (id n : Nat)
    (h : b.readBodyChunk id = b2.readBodyChunk id) :
    b.pullN id (n + 1) = b2.pullN id (n + 1) := by
  rw [Bodies.pullN, Bodies.pullN, h]

/-- C2: pulling a registered body `cs` drives it to completion in
`cs.length + 1` pulls — each pull performs one source read and yields the next
chunk in order, the final pull yields `done = true` and removes both the
cached reader and the registry entry, after which a further pull for the same
id fails with the unknown-body error; a pull for an id absent from both maps
(never registered) also fails with the unknown-body error. -/
theorem readBodyChunk_lifecycle :
    (∀ (b : Bodies) (id : Nat) (cs : StreamModel),
       alookup b.readers id = none → alookup b.bodies id = some cs →
       b.pullN id (cs.length + 1)
         = .ok (cs.map (fun c => ⟨some c, false⟩) ++ [⟨none, true⟩],
                { b with readers := aerase b.readers id
                         bodies := aerase b.bodies id })
       ∧ Bodies.readBodyChunk
           { b with readers := aerase b.readers id
                    bodies := aerase b.bodies id } id
           = .error (.unknownBody id))
    ∧ (∀ (b : Bodies) (id : Nat),
       alookup b.readers id = none → alookup b.bodies id = none →
       b.readBodyChunk id = .error (.unknownBody id)) := by
  constructor
  · intro b id cs hr hb
    constructor
    · have hread : b.readBodyChunk id
          = Bodies.readBodyChunk { b with readers := ainsert b.readers id cs } id := by
        simp [Bodies.readBodyChunk, hr, hb, alookup_ainsert_self]
      have hfinal := pullN_of_reader cs { b with readers := ainsert b.readers id cs }
        id (alookup_ainsert_self b.readers id cs)
      rw [pullN_congr_read b _ id cs.length hread, hfinal]
      simp [aerase_ainsert_self]
    · simp [Bodies.readBodyChunk, alookup_aerase_self]
  · intro b id hr hb
    simp [Bodies.readBodyChunk, hr, hb]

/-- Witness for C2: a registered two-chunk body is drained in three pulls,
the registry entry is gone afterwards, and both a post-completion pull and a
pull for a never-registered id fail. -/
theorem readBodyChunk_lifecycle_witness :
    Bodies.pullN { bodies := [(1, [[10], [20]])], readers := [], nextBodyId := 2 } 1 3
      = .ok ([⟨some [10], false⟩, ⟨some [20], false⟩, ⟨none, true⟩],
             { bodies := [], readers := [], nextBodyId := 2 })
    ∧ Bodies.readBodyChunk { bodies := [], readers := [], nextBodyId := 2 } 1
      = .error (.unknownBody 1)
    ∧ Bodies.readBodyChunk Bodies.init 7 = .error (.unknownBody 7) := by
  have h := readBodyChunk_lifecycle.1
    { bodies := [(1, [[10], [20]])], readers := [], nextBodyId := 2 } 1 [[10], [20]]
    rfl rfl
  have h2 := readBodyChunk_lifecycle.2 Bodies.init 7 rfl rfl
  exact ⟨h.1, h.2, h2⟩

/-- A pull never touches the id counter. -/
theorem readBodyChunk_preserves_nextBodyId (b : Bodies) (id : Nat)
    (r : ReadResult) (b' : Bodies) (h : b.readBodyChunk id = .ok (r, b')) :
    b'.nextBodyId = b.nextBodyId := by
  unfold Bodies.readBodyChunk at h
  rcases hr : alookup b.readers id with _ | rem
  · rw [hr] at h
    rcases hb : alookup b.bodies id with _ | body
    · rw [hb] at h
      exact Except.noConfusion h
    · rw [hb] at h
      cases body with
      | nil =>
          simp only [Bodies.readStep, Except.ok.injEq, Prod.mk.injEq] at h
          rw [← h.2]
      | cons c rest =>
          simp only [Bodies.readStep, Except.ok.injEq, Prod.mk.injEq] at h
          rw [← h.2]
  · rw [hr] at h
    cases rem with
    | nil =>
        simp only [Bodies.readStep, Except.ok.injEq, Prod.mk.injEq] at h
        rw [← h.2]
    | cons c rest =>
        simp only [Bodies.readStep, Except.ok.injEq, Prod.mk.injEq] at h
        rw [← h.2]

/-- Applying any operation other than a present-body registration leaves the
id counter unchanged; a present-body registration increments it. -/
theorem applyOp_nextBodyId (b : Bodies) (op : BodiesOp) :
    (Bodies.applyOp b op).nextBodyId
      = (match op with
         | .register (some _) => b.nextBodyId + 1
         | .register none => b.nextBodyId
         | .pull _ => b.nextBodyId) := by
  cases op with
  | register body => cases body <;> rfl
  | pull id =>
      simp only [Bodies.applyOp]
      rcases h : b.readBodyChunk id with e | ⟨r, b'⟩
      · rfl
      · exact readBodyChunk_preserves_nextBodyId b id r b' h

/-- Over any operation sequence, the ids handed out by present-body
registrations are exactly the consecutive integers starting at the current
counter value. -/
theorem registeredIds_eq_range' (ops : List BodiesOp) :
    ∀ b : Bodies,
      Bodies.registeredIds b ops
        = List.range' b.nextBodyId (countPresentRegisters ops) := by
  induction ops with
  | nil => intro b; rfl
  | cons op rest ih =>
      intro b
      cases op with
      | register body =>
          cases body with
          | none =>
              simp only [Bodies.registeredIds, Bodies.computeBodyId,
                countPresentRegisters]
              exact ih b
          | some s =>
              simp only [Bodies.registeredIds, Bodies.computeBodyId,
                countPresentRegisters]
              rw [ih]
              rfl
      | pull id =>
          simp only [Bodies.registeredIds, countPresentRegisters]
          rw [ih]
          rw [applyOp_nextBodyId]

/-- C3: registering a null body hands out no identifier and leaves the
registry unchanged; over any lifetime of register and pull operations starting
from a fresh registry, the identifiers handed out for present bodies are
exactly `1, 2, 3, …` in order, hence strictly increasing and never reused even
after entries are released by pulls. -/
theorem computeBodyId_monotone_ids :
    (∀ b : Bodies, b.computeBodyId none = (none, b))
    ∧ (∀ ops : List BodiesOp,
        Bodies.registeredIds Bodies.init ops
          = List.range' 1 (countPresentRegisters ops))
    ∧ (∀ ops : List BodiesOp,
        (Bodies.registeredIds Bodies.init ops).Pairwise (· < ·)) := by
  refine ⟨fun b => rfl, fun ops => registeredIds_eq_range' ops Bodies.init, ?_⟩
  intro ops
  rw [registeredIds_eq_range' ops Bodies.init]
  exact List.pairwise_lt_range' 1 (countPresentRegisters ops)
